import Mathlib

/-!
Verification of the django-queryset-feeler core: a shallow embedding of
`src/django_queryset_feeler/thing.py` (the classifier and executors) and
`src/django_queryset_feeler/__init__.py` (the `Feel` profiling facade),
together with proofs about classification precedence, error handling,
capture caching, table aggregation and scoped profiling.

External collaborators (Django's trace log and queryset machinery, the
`sql_metadata` table parser, Python's `collections.Counter` and `sorted`)
are modelled by their documented semantics; everything else is translated
directly from the repository source.
-/

namespace DQF

/-! ### String containment helper

Models Python's `in` operator on strings (`cbv in str(x)`), used by the
mro-based capability checks in `thing.py`. -/

/-- Boolean test that the first character list starts with the second. -/
def leadsWith : List Char → List Char → Bool
  | [], _ => true
  | _ :: _, [] => false
  | p :: ps, c :: cs => (p == c) && leadsWith ps cs

/-- Boolean test that `pat` occurs as a contiguous run inside the list. -/
def containsAux (pat : List Char) : List Char → Bool
  | [] => pat.isEmpty
  | c :: rest => leadsWith pat (c :: rest) || containsAux pat rest

/-- Python's `pat in s` substring test. -/
def strContains (s pat : String) : Bool := containsAux pat.toList s.toList

/-! ### The classifier (`thing.py`) -/

/-- The five tags `Thing.find_thing_type` can assign (`thing.py` lines 23-42). -/
inductive ThingType where
  | queryset
  | django_cbv
  | serializer
  | view
  | function
deriving DecidableEq

/-- The Python-observable features of an input value that
`Thing.find_thing_type` and its capability checks inspect.

* `isQuerySetType` — `type(thing) == QuerySet`
* `isClass` — `inspect.isclass(thing)`
* `isCallable` — `callable(thing)`
* `mro` — `str(c)` for each `c` in `thing.__mro__` (meaningful when `isClass`)
* `hasRequestParam` — `'request' in signature(thing).parameters`
* `callResultType` — the exact dynamic type name of `thing(HttpRequest())`
  (`type(response)`; a subclass such as `JsonResponse` is a different name)
* `isModelInstance` — `isinstance(thing, django.db.models.Model)`; recorded
  because the spec discusses stored-record instances, but note that
  `find_thing_type` never inspects it. -/
structure PyValue where
  isQuerySetType : Bool
  isClass : Bool
  isCallable : Bool
  mro : List String
  hasRequestParam : Bool
  callResultType : String
  isModelInstance : Bool

/-- The class names string-matched against the mro by
`Thing.check_django_class_based_view` (`thing.py` lines 55-69). -/
def valid_cbvs : List String :=
  ["View", "TemplateView", "RedirectView", "ArchiveIndexView", "YearArchiveView",
   "MonthArchiveView", "WeekArchiveView", "DayArchiveView", "TodayArchiveView",
   "DateDetailView", "DetailView", "ListView", "GenericViewError"]

/-- `Thing.check_django_class_based_view` (`thing.py` lines 54-75): some mro
entry's string form contains one of the known class-based-view names. -/
def check_django_class_based_view (v : PyValue) : Bool :=
  v.mro.any (fun x => valid_cbvs.any (fun cbv => strContains x cbv))

/-- `Thing.check_serializer` (`thing.py` lines 77-83): some mro entry's string
form mentions the DRF `ModelSerializer` base. -/
def check_serializer (v : PyValue) : Bool :=
  v.mro.any (fun x => strContains x "rest_framework.serializers.ModelSerializer")

/-- `Thing.check_django_view` (`thing.py` lines 44-52): if the signature has a
`request` parameter the callable is invoked once with a fresh `HttpRequest()`
and the check passes only when the response's exact type is `HttpResponse`.
Returns the boolean outcome together with the number of invocations the check
itself performed. -/
def check_django_view (v : PyValue) : Bool × Nat :=
  if !v.hasRequestParam then (false, 0)
  else ((v.callResultType == "HttpResponse"), 1)

/-- Message of the dead `TypeError` raised for executed querysets
(`exceptions.py`). -/
def executedQueryError : String :=
  "A model instance was passed to a function where a queryset was expected."

/-- `Thing.find_thing_type` (`thing.py` lines 23-42), translated branch by
branch. The second component counts how many times the input value itself was
invoked during classification (only `check_django_view` invokes it). -/
def find_thing_type (v : PyValue) : Except String ThingType × Nat :=
  if v.isQuerySetType then (Except.ok ThingType.queryset, 0)
  else if v.isClass then
    if check_django_class_based_view v then (Except.ok ThingType.django_cbv, 0)
    else if check_serializer v then (Except.ok ThingType.serializer, 0)
    else (Except.error "Invalid Class", 0)
  else if v.isCallable then
    let c := check_django_view v
    (Except.ok (if c.1 then ThingType.view else ThingType.function), c.2)
  else
    if v.isQuerySetType then (Except.error executedQueryError, 0)
    else (Except.error "Invalid Thing", 0)

/-- `Thing.find_executor_type` (`thing.py` lines 85-97): the executor method
chosen for each tag. -/
def find_executor_type : ThingType → String
  | ThingType.queryset => "execute_queryset"
  | ThingType.view => "execute_view"
  | ThingType.function => "execute_function"
  | ThingType.django_cbv => "execute_django_cbv"
  | ThingType.serializer => "execute_serializer"

/-- How each executor method passes arguments to the wrapped value, read off
the executor bodies (`thing.py` lines 99-147): `execute_function` calls
`thing()` with no arguments, `execute_view` calls `thing(request)`,
`execute_django_cbv` drives `thing.as_view()(request)`, `execute_queryset`
iterates `ModelIterable(thing)`, `execute_serializer` serializes the model's
full queryset. -/
inductive CallStyle where
  | noArgs
  | withRequest
  | cbvDispatch
  | modelIterableRun
  | serializerRun
deriving DecidableEq

/-- The invocation style of the executor selected for each tag
(`thing.py` lines 85-147). -/
def executorCallStyle : ThingType → CallStyle
  | ThingType.queryset => CallStyle.modelIterableRun
  | ThingType.view => CallStyle.withRequest
  | ThingType.function => CallStyle.noArgs
  | ThingType.django_cbv => CallStyle.cbvDispatch
  | ThingType.serializer => CallStyle.serializerRun

/-- The method names defined on class `Thing` (`thing.py` lines 10-150).
Note the wrapper defines `execute_thing`, not `execute`. -/
def thingMethodNames : List String :=
  ["__init__", "find_thing_type", "check_django_view",
   "check_django_class_based_view", "check_serializer", "find_executor_type",
   "execute_queryset", "execute_view", "execute_function",
   "execute_django_cbv", "execute_serializer", "execute_thing"]

/-! ### The capture pipeline (`__init__.py`) -/

/-- One entry of Django's trace log `connection.queries`: a dict with the
statement text and the engine-reported duration string. -/
structure RawQuery where
  sql : String
  time : String
deriving DecidableEq

/-- A captured query record, dataclass `Query` (`__init__.py` lines 67-73). -/
structure Query where
  sql : String
  time : String
  table : String
deriving DecidableEq

/-- The `sql_metadata` parser collaborator: `SQLParser(sql).tables`.
`none` models the parser raising `ValueError` on unparsable SQL; `some ts`
models a successful parse producing the table list. -/
def SqlParser := String → Option (List String)

/-- `_extract_table` (`__init__.py` lines 50-56): on parser failure return the
sentinel `"<unknown>"`; otherwise the first parsed table, or the sentinel when
the parser found no tables. -/
def extract_table (p : SqlParser) (sql : String) : String :=
  match p sql with
  | none => "<unknown>"
  | some tables =>
    match tables with
    | [] => "<unknown>"
    | t :: _ => t

/-- The snapshot comprehension shared by `Feel._execute` (lines 107-110) and
`Feel.profile` (lines 206-209): map every trace-log entry to a `Query`
record, resolving its table with `_extract_table`. -/
def snapshotQueries (p : SqlParser) (log : List RawQuery) : List Query :=
  log.map (fun q => { sql := q.sql, time := q.time, table := extract_table p q.sql })

/-- `django.db.reset_queries()`: clears the process-wide trace log. -/
def resetQueries (_log : List RawQuery) : List RawQuery := []

/-! ### The `Feel` facade (`__init__.py` lines 76-209) -/

/-- Python exceptions that the facade's own plumbing can raise (distinct from
the classifier's `TypeError`s, which abort construction). -/
inductive PyErr where
  | attributeError
  | statisticsError
deriving DecidableEq

/-- The classified wrapper held in `Feel._thing`: the methods its class
defines and the trace-log entries one real invocation of the wrapped unit
appends. -/
structure ThingModel where
  methods : List String
  emits : List RawQuery

/-- Python attribute lookup of `execute` followed by a call: `self._thing.execute()`.
Succeeds (appending the unit's statements to the log) only when the wrapper's
class actually defines a method named `execute`; otherwise `AttributeError`. -/
def invokeUnit (t : ThingModel) (log : List RawQuery) : Except PyErr (List RawQuery) :=
  if t.methods.contains "execute" then Except.ok (log ++ t.emits)
  else Except.error PyErr.attributeError

/-- The mutable fields of a `Feel` instance (`__init__.py` lines 89-99).
`thing` is `none` for instances made by `Feel.profile` via `cls.__new__`
(which never sets `_thing`). The durations in `times` are opaque wall-clock
readings; their values are not modelled, only how many exist. -/
structure FeelState where
  thing : Option ThingModel
  thingType : Option ThingType
  queries : Option (List Query)
  times : Option (List Nat)
  iterations : Nat

/-- `Feel.__init__` (`__init__.py` lines 89-99): classification happens here,
so an unsupported input raises its `TypeError` at construction; on success the
state starts with both caches unset. `emits` is the collaborator-supplied
behaviour of the wrapped unit (what one invocation appends to the trace log). -/
def Feel.init (v : PyValue) (emits : List RawQuery) (iterations : Nat) :
    Except String FeelState :=
  match (find_thing_type v).1 with
  | Except.error e => Except.error e
  | Except.ok tt =>
    Except.ok { thing := some { methods := thingMethodNames, emits := emits },
                thingType := some tt, queries := none, times := none,
                iterations := iterations }

/-- `Feel._execute` (`__init__.py` lines 101-110): return immediately when the
query cache is set; otherwise reset the trace log, call `self._thing.execute()`
and snapshot the log into the cache. An exception propagates before the cache
is written. -/
def Feel._execute (p : SqlParser) (callerLog : List RawQuery) (st : FeelState) :
    Except PyErr FeelState :=
  match st.queries with
  | some _ => Except.ok st
  | none =>
    match st.thing with
    | none => Except.error PyErr.attributeError
    | some t =>
      match invokeUnit t (resetQueries callerLog) with
      | Except.error e => Except.error e
      | Except.ok log => Except.ok { st with queries := some (snapshotQueries p log) }

/-- `Feel.queries` (`__init__.py` lines 112-117). -/
def Feel.queriesProp (p : SqlParser) (callerLog : List RawQuery) (st : FeelState) :
    Except PyErr (FeelState × List Query) :=
  (Feel._execute p callerLog st).map (fun st' => (st', st'.queries.getD []))

/-- `Feel.count` (`__init__.py` lines 119-124). -/
def Feel.count (p : SqlParser) (callerLog : List RawQuery) (st : FeelState) :
    Except PyErr (FeelState × Nat) :=
  (Feel._execute p callerLog st).map (fun st' => (st', (st'.queries.getD []).length))

/-- `Feel.sql` (`__init__.py` lines 126-131). The pygments/sqlparse
highlighting collaborator is presentational and modelled as the identity on
each statement's text. -/
def Feel.sqlProp (p : SqlParser) (callerLog : List RawQuery) (st : FeelState) :
    Except PyErr (FeelState × String) :=
  (Feel._execute p callerLog st).map
    (fun st' => (st', String.intercalate "\n\n" ((st'.queries.getD []).map (fun q => q.sql))))

/-! ### Table aggregation (`Feel.tables`, `__init__.py` lines 133-139)

`Counter(q.table for q in self._queries)` is modelled by its documented
semantics: a mapping whose keys appear in first-insertion (first-seen) order
and whose value for a key is the number of occurrences.  Python's
`sorted(..., key=lambda x: x[1], reverse=True)` is a stable sort: entries are
ordered by descending count and entries with equal counts keep their relative
(first-seen) order. -/

/-- Keys of a Python dict built by repeated insertion: the distinct elements
of the list in order of first occurrence (`seen` accumulates keys already
inserted). -/
def firstSeenAux (seen : List String) : List String → List String
  | [] => []
  | t :: ts => if t ∈ seen then firstSeenAux seen ts else t :: firstSeenAux (t :: seen) ts

/-- The distinct elements of a list in first-seen order. -/
def firstSeen (l : List String) : List String := firstSeenAux [] l

/-- `collections.Counter(ts).items()`: pairs of distinct element and
occurrence count, in first-seen order. -/
def counterItems (ts : List String) : List (String × Nat) :=
  (firstSeen ts).map (fun t => (t, ts.count t))

/-- Stable insertion step of Python's `sorted(..., key=lambda x: x[1],
reverse=True)`: the new entry goes in front of the first entry whose count is
not larger, so that among equal counts earlier (first-seen) entries stay
first. -/
def insertDesc (x : String × Nat) : List (String × Nat) → List (String × Nat)
  | [] => [x]
  | y :: ys => if y.2 ≤ x.2 then x :: y :: ys else y :: insertDesc x ys

/-- Python's stable `sorted(items, key=lambda x: x[1], reverse=True)`. -/
def sortDesc (l : List (String × Nat)) : List (String × Nat) :=
  l.foldr insertDesc []

/-- The body of `Feel.tables` (`__init__.py` lines 138-139) as a function of
the cached capture: count table occurrences and sort descending by count
(stable, so ties keep first-seen order); `dict(...)` preserves this order. -/
def tablesOf (qs : List Query) : List (String × Nat) :=
  sortDesc (counterItems (qs.map Query.table))

/-- `Feel.tables` (`__init__.py` lines 133-139). -/
def Feel.tablesProp (p : SqlParser) (callerLog : List RawQuery) (st : FeelState) :
    Except PyErr (FeelState × List (String × Nat)) :=
  (Feel._execute p callerLog st).map (fun st' => (st', tablesOf (st'.queries.getD [])))

/-! ### Timing (`Feel.time`, `__init__.py` lines 141-152) -/

/-- `statistics.mean`: raises `StatisticsError` on an empty sequence.
Duration values are opaque in the embedding, so the mean is only computed
symbolically as a sum-quotient over the recorded placeholders. -/
def meanE (ds : List Nat) : Except PyErr Nat :=
  if ds.length = 0 then Except.error PyErr.statisticsError
  else Except.ok (ds.sum / ds.length)

/-- `Feel._benchmark_once` iterated `iterations` times
(`__init__.py` lines 144-152): each run calls `self._thing.execute()` and
records a wall-clock duration (opaque; modelled as `0`). The trace log is not
reset by this path. -/
def benchRuns (t : ThingModel) : Nat → Except PyErr (List Nat)
  | 0 => Except.ok []
  | n + 1 =>
    match invokeUnit t [] with
    | Except.error e => Except.error e
    | Except.ok _ => (benchRuns t n).map (fun ds => 0 :: ds)

/-- `Feel.time` (`__init__.py` lines 141-146): benchmark `iterations` runs on
first read, cache the duration list, return the mean. -/
def Feel.timeProp (st : FeelState) : Except PyErr (FeelState × Nat) :=
  match st.times with
  | some ds => (meanE ds).map (fun m => (st, m))
  | none =>
    match st.thing with
    | none => Except.error PyErr.attributeError
    | some t =>
      match benchRuns t st.iterations with
      | Except.error e => Except.error e
      | Except.ok ds => (meanE ds).map (fun m => ({ st with times := some ds }, m))

/-- `Feel.report` (`__init__.py` lines 154-165): reads `count`, `time` and
`tables` in that order and yields the data the formatted lines display; the
most-accessed entry is the head of `tables` and is omitted when it is empty.
The numeric formatting itself is presentational and not modelled. -/
def Feel.report (p : SqlParser) (callerLog : List RawQuery) (st : FeelState) :
    Except PyErr (FeelState × (Nat × Nat × Nat × Option (String × Nat))) := do
  let (st1, c) ← Feel.count p callerLog st
  let (st2, tm) ← Feel.timeProp st1
  let (st3, tb) ← Feel.tablesProp p callerLog st2
  Except.ok (st3, (c, tm, tb.length, tb.head?))

/-- `Feel.to_dict` (`__init__.py` lines 167-177): the structured mapping
with the thing type, count, mean time, tables and raw query records. -/
def Feel.to_dict (p : SqlParser) (callerLog : List RawQuery) (st : FeelState) :
    Except PyErr (FeelState × (Option ThingType × Nat × Nat × List (String × Nat) × List Query)) := do
  let (st1, c) ← Feel.count p callerLog st
  let (st2, tm) ← Feel.timeProp st1
  let (st3, tb) ← Feel.tablesProp p callerLog st2
  let (st4, qs) ← Feel.queriesProp p callerLog st3
  Except.ok (st4, (st4.thingType, c, tm, tb, qs))

/-- `Feel.profile` (`__init__.py` lines 186-209): clear the trace log on
entry, run the caller's block (which appends `blockEmits` to the cleared
log), and on exit snapshot the log into a fresh instance made by
`cls.__new__` — so `_thing` is never set and the query cache is already
populated. -/
def Feel.profile (p : SqlParser) (priorLog blockEmits : List RawQuery) : FeelState :=
  { thing := none, thingType := none,
    queries := some (snapshotQueries p (resetQueries priorLog ++ blockEmits)),
    times := none, iterations := 32 }

/-! ### The queryset executor (`Thing.execute_queryset`, `thing.py` lines 99-109)

Django collaborator semantics, as documented by Django and restated in the
executor's own docstring: calling `list()` on a queryset consults and fills
its `_result_cache`, while iterating a fresh `ModelIterable` over the
queryset always executes the underlying SQL against the database and neither
reads nor writes `_result_cache`. -/

/-- A Django queryset as the executor sees it: a possibly populated result
cache, the rows the database currently holds for its query, and the SQL text
executing it emits to the trace log. -/
structure DjangoQuerySet where
  resultCache : Option (List Nat)
  dbRows : List Nat
  selectSql : String

/-- Executing the queryset's SQL: returns the database rows and appends one
statement to the trace log. -/
def runQuerySetSql (qs : DjangoQuerySet) (log : List RawQuery) :
    List Nat × List RawQuery :=
  (qs.dbRows, log ++ [{ sql := qs.selectSql, time := "0.000" }])

/-- Python's `list(queryset)`: serve the memoized rows when `_result_cache`
is populated (emitting nothing), otherwise execute and populate the cache. -/
def pyListQuerySet (qs : DjangoQuerySet) (log : List RawQuery) :
    List Nat × DjangoQuerySet × List RawQuery :=
  match qs.resultCache with
  | some rows => (rows, qs, log)
  | none =>
    let r := runQuerySetSql qs log
    (r.1, { qs with resultCache := some r.1 }, r.2)

/-- `Thing.execute_queryset` (`thing.py` lines 99-109):
`list(ModelIterable(thing))` — always executes the SQL, ignoring and leaving
untouched the queryset's `_result_cache`. -/
def execute_queryset (qs : DjangoQuerySet) (log : List RawQuery) :
    List Nat × List RawQuery :=
  let r := runQuerySetSql qs log
  (r.1, r.2)

/-! ### The precedence reading of the classifier (spec §4.1)

Used to compare `find_thing_type` with the spec's "ordered detector list,
first match wins" description. -/

/-- The detector list actually implemented, in the spec's order: queryset,
class-based handler, serializer, request callable, plain callable. The
callable detectors carry the `!isClass` guard because in the source a class
matching neither class detector is rejected instead of falling through to
the callable branch. -/
def precedenceDetectors : List ((PyValue → Bool) × ThingType) :=
  [(fun v => v.isQuerySetType, ThingType.queryset),
   (fun v => v.isClass && check_django_class_based_view v, ThingType.django_cbv),
   (fun v => v.isClass && check_serializer v, ThingType.serializer),
   (fun v => !v.isClass && v.isCallable && (check_django_view v).1, ThingType.view),
   (fun v => !v.isClass && v.isCallable, ThingType.function)]

/-- Top-to-bottom, first-matching-detector-wins evaluation of
`precedenceDetectors`. -/
def firstMatchTag (v : PyValue) : Option ThingType :=
  (precedenceDetectors.find? (fun d => d.1 v)).map Prod.snd

/-- Modelled from the spec: the record-instance capability of §4.1's detector
(4) — the value is an instance of a stored-record (model) type. No such
detector exists anywhere in `thing.py`; this definition only states it. -/
def matches_record_instance (v : PyValue) : Bool := v.isModelInstance

/-- The six supported kinds the spec says the classification failure message
enumerates (§4.1). -/
def specKindNames : List String :=
  ["queryset", "class_based_handler", "serializer", "record_instance",
   "request_callable", "plain_callable"]

/-! ### Concrete values used in witnesses and counterexamples -/

/-- A saved model instance (e.g. `Pizza.objects.get(name="Hawaiian")`): not of
type `QuerySet`, not a class, not callable. -/
def modelInstanceValue : PyValue :=
  { isQuerySetType := false, isClass := false, isCallable := false, mro := [],
    hasRequestParam := false, callResultType := "", isModelInstance := true }

/-- Another saved model instance, used independently of `modelInstanceValue`. -/
def pizzaInstance : PyValue :=
  { isQuerySetType := false, isClass := false, isCallable := false, mro := [],
    hasRequestParam := false, callResultType := "", isModelInstance := true }

/-- A plain integer such as `42`: matches no detector at all. -/
def intValue : PyValue :=
  { isQuerySetType := false, isClass := false, isCallable := false, mro := [],
    hasRequestParam := false, callResultType := "", isModelInstance := false }

/-- A Django class-based view such as `tests.views.PizzaListView`: a class
(hence callable) whose mro string forms mention `ListView`. -/
def listViewClass : PyValue :=
  { isQuerySetType := false, isClass := true, isCallable := true,
    mro := ["<class 'tests.views.PizzaListView'>",
            "<class 'django.views.generic.list.ListView'>",
            "<class 'object'>"],
    hasRequestParam := false, callResultType := "", isModelInstance := false }

/-- A view function with a `request` parameter that returns a `JsonResponse`
(a strict subclass of `HttpResponse`, so a different exact type). -/
def jsonView : PyValue :=
  { isQuerySetType := false, isClass := false, isCallable := true, mro := [],
    hasRequestParam := true, callResultType := "JsonResponse",
    isModelInstance := false }

/-- A plain function without a `request` parameter. -/
def exampleFunctionValue : PyValue :=
  { isQuerySetType := false, isClass := false, isCallable := true, mro := [],
    hasRequestParam := false, callResultType := "", isModelInstance := false }

/-- The queryset `Pizza.objects.all()`. -/
def pizzaQuerysetValue : PyValue :=
  { isQuerySetType := true, isClass := false, isCallable := false, mro := [],
    hasRequestParam := false, callResultType := "", isModelInstance := false }

/-- The one trace-log entry that running `Pizza.objects.all()` appends. -/
def pizzaEmit : RawQuery := { sql := "SELECT * FROM tests_pizza", time := "0.001" }

/-- A parser that resolves every statement to the `tests_pizza` table. -/
def pAll : SqlParser := fun _ => some ["tests_pizza"]

/-- The facade state `Feel(Pizza.objects.all())` constructs: wrapper with the
source's method table, both caches unset. -/
def feelPizzaState : FeelState :=
  { thing := some { methods := thingMethodNames, emits := [pizzaEmit] },
    thingType := some ThingType.queryset, queries := none, times := none,
    iterations := 32 }

/-- The facade state `Feel(example_function)` constructs. -/
def exampleFnState : FeelState :=
  { thing := some { methods := thingMethodNames, emits := [pizzaEmit] },
    thingType := some ThingType.function, queries := none, times := none,
    iterations := 32 }

/-- A parser that fails (raises `ValueError`) exactly on the statement
`"bad("` and parses every other statement to `tests_topping`. -/
def failingParser : SqlParser :=
  fun s => if s == "bad(" then none else some ["tests_topping"]

/-- A trace log holding one unparsable statement followed by one parsable
statement. -/
def mixedLog : List RawQuery :=
  [{ sql := "bad(", time := "0.1" }, { sql := "SELECT * FROM tests_topping", time := "0.2" }]

/-- A queryset whose result cache is already populated with stale memoized
rows that differ from what the database currently holds. -/
def cachedQuerySet : DjangoQuerySet :=
  { resultCache := some [7], dbRows := [1, 2], selectSql := "SELECT * FROM tests_pizza" }

/-- An old trace-log entry left over from before scoped profiling starts. -/
def staleEntry : RawQuery := { sql := "SELECT * FROM tests_topping", time := "0.009" }

/-- A view function with a `request` parameter returning exactly
`HttpResponse`. -/
def plainHttpView : PyValue :=
  { isQuerySetType := false, isClass := false, isCallable := true, mro := [],
    hasRequestParam := true, callResultType := "HttpResponse",
    isModelInstance := false }

/-- A completed three-query capture: two pizza queries around one topping
query. -/
def demoCapture : List Query :=
  [{ sql := "s1", time := "0.1", table := "tests_pizza" },
   { sql := "s2", time := "0.1", table := "tests_topping" },
   { sql := "s3", time := "0.1", table := "tests_pizza" }]

/-! ### Lemmas about first-seen deduplication -/

theorem mem_firstSeenAux (a : String) :
    ∀ (l seen : List String), a ∈ firstSeenAux seen l ↔ a ∈ l ∧ a ∉ seen := by
  intro l
  induction l with
  | nil => simp [firstSeenAux]
  | cons t ts ih =>
    intro seen
    by_cases h : t ∈ seen
    · rw [firstSeenAux, if_pos h, ih]
      constructor
      · rintro ⟨ha, hc⟩; exact ⟨List.mem_cons_of_mem _ ha, hc⟩
      · rintro ⟨ha, hc⟩
        rcases List.mem_cons.mp ha with rfl | ha'
        · exact absurd h hc
        · exact ⟨ha', hc⟩
    · rw [firstSeenAux, if_neg h]
      constructor
      · intro hm
        rcases List.mem_cons.mp hm with rfl | hm'
        · exact ⟨List.mem_cons_self _ _, h⟩
        · have hm2 := (ih (t :: seen)).mp hm'
          exact ⟨List.mem_cons_of_mem _ hm2.1,
                 fun hs => hm2.2 (List.mem_cons_of_mem _ hs)⟩
      · rintro ⟨ha, hc⟩
        rcases List.mem_cons.mp ha with rfl | ha'
        · exact List.mem_cons_self _ _
        · by_cases hat : a = t
          · subst hat; exact List.mem_cons_self _ _
          · refine List.mem_cons_of_mem _ ((ih (t :: seen)).mpr ⟨ha', ?_⟩)
            intro hs
            rcases List.mem_cons.mp hs with e | hs'
            · exact hat e
            · exact hc hs'

theorem nodup_firstSeenAux :
    ∀ (l seen : List String), (firstSeenAux seen l).Nodup := by
  intro l
  induction l with
  | nil => intro seen; simp [firstSeenAux]
  | cons t ts ih =>
    intro seen
    by_cases h : t ∈ seen
    · rw [firstSeenAux, if_pos h]; exact ih seen
    · rw [firstSeenAux, if_neg h]
      refine List.nodup_cons.mpr ⟨fun hmem => ?_, ih (t :: seen)⟩
      exact ((mem_firstSeenAux t ts (t :: seen)).mp hmem).2 (List.mem_cons_self t seen)

theorem findIdxStr_cons_ne (t a : String) (ts : List String) (h : a ≠ t) :
    List.findIdx (fun s => s == a) (t :: ts) = List.findIdx (fun s => s == a) ts + 1 := by
  have hf : (t == a) = false := beq_eq_false_iff_ne.mpr (fun e => h e.symm)
  simp [List.findIdx_cons, hf]

theorem findIdxStr_cons_self (t : String) (ts : List String) :
    List.findIdx (fun s => s == t) (t :: ts) = 0 := by
  simp [List.findIdx_cons]

theorem pairwise_firstSeenAux :
    ∀ (l seen : List String),
      (firstSeenAux seen l).Pairwise
        (fun a b => l.findIdx (fun s => s == a) < l.findIdx (fun s => s == b)) := by
  intro l
  induction l with
  | nil => intro seen; simp [firstSeenAux]
  | cons t ts ih =>
    intro seen
    by_cases h : t ∈ seen
    · rw [firstSeenAux, if_pos h]
      refine (ih seen).imp_of_mem ?_
      intro a b ha hb hlt
      have hat : a ≠ t := fun e =>
        ((mem_firstSeenAux a ts seen).mp ha).2 (e ▸ h)
      have hbt : b ≠ t := fun e =>
        ((mem_firstSeenAux b ts seen).mp hb).2 (e ▸ h)
      rw [findIdxStr_cons_ne t a ts hat, findIdxStr_cons_ne t b ts hbt]
      omega
    · rw [firstSeenAux, if_neg h]
      refine List.pairwise_cons.mpr ⟨?_, ?_⟩
      · intro b hb
        have hbt : b ≠ t := fun e =>
          ((mem_firstSeenAux b ts (t :: seen)).mp hb).2
            (by rw [e]; exact List.mem_cons_self t seen)
        rw [findIdxStr_cons_self t ts, findIdxStr_cons_ne t b ts hbt]
        omega
      · refine (ih (t :: seen)).imp_of_mem ?_
        intro a b ha hb hlt
        have hat : a ≠ t := fun e =>
          ((mem_firstSeenAux a ts (t :: seen)).mp ha).2
            (by rw [e]; exact List.mem_cons_self t seen)
        have hbt : b ≠ t := fun e =>
          ((mem_firstSeenAux b ts (t :: seen)).mp hb).2
            (by rw [e]; exact List.mem_cons_self t seen)
        rw [findIdxStr_cons_ne t a ts hat, findIdxStr_cons_ne t b ts hbt]
        omega

theorem count_cons_ne_str (s t : String) (ts : List String) (h : s ≠ t) :
    (t :: ts).count s = ts.count s := by
  rw [List.count_cons]
  simp [beq_eq_false_iff_ne.mpr (fun e => h e.symm)]

theorem count_split_filter (t : String) :
    ∀ (ts seen : List String), t ∉ seen →
      (ts.filter (fun s => decide (s ∉ seen))).length =
        ts.count t + (ts.filter (fun s => decide (s ∉ t :: seen))).length := by
  intro ts
  induction ts with
  | nil => intro seen _; simp
  | cons s ss ih =>
    intro seen hts
    by_cases hst : s = t
    · subst hst
      have h1 : (s :: ss).filter (fun x => decide (x ∉ seen)) =
          s :: ss.filter (fun x => decide (x ∉ seen)) := by
        simp only [List.filter_cons]
        rw [if_pos (by simpa using hts)]
      have h2 : (s :: ss).filter (fun x => decide (x ∉ s :: seen)) =
          ss.filter (fun x => decide (x ∉ s :: seen)) := by
        simp only [List.filter_cons]
        rw [if_neg (by simp)]
      have h3 : (s :: ss).count s = ss.count s + 1 := by
        rw [List.count_cons]; simp
      rw [h1, h2, h3, List.length_cons, ih seen hts]
      omega
    · have hcnt : (s :: ss).count t = ss.count t :=
        count_cons_ne_str t s ss (fun e => hst e.symm)
      by_cases hs : s ∈ seen
      · have h1 : (s :: ss).filter (fun x => decide (x ∉ seen)) =
            ss.filter (fun x => decide (x ∉ seen)) := by
          simp only [List.filter_cons]
          rw [if_neg (by simpa using hs)]
        have h2 : (s :: ss).filter (fun x => decide (x ∉ t :: seen)) =
            ss.filter (fun x => decide (x ∉ t :: seen)) := by
          simp only [List.filter_cons]
          rw [if_neg (by simp [hs])]
        rw [h1, h2, hcnt, ih seen hts]
      · have h1 : (s :: ss).filter (fun x => decide (x ∉ seen)) =
            s :: ss.filter (fun x => decide (x ∉ seen)) := by
          simp only [List.filter_cons]
          rw [if_pos (by simpa using hs)]
        have h2 : (s :: ss).filter (fun x => decide (x ∉ t :: seen)) =
            s :: ss.filter (fun x => decide (x ∉ t :: seen)) := by
          simp only [List.filter_cons]
          rw [if_pos (by simp [hs, hst])]
        rw [h1, h2, hcnt, List.length_cons, List.length_cons, ih seen hts]
        omega

theorem sum_counts_firstSeenAux :
    ∀ (l seen : List String),
      ((firstSeenAux seen l).map (fun s => l.count s)).sum =
        (l.filter (fun s => decide (s ∉ seen))).length := by
  intro l
  induction l with
  | nil => intro seen; simp [firstSeenAux]
  | cons t ts ih =>
    intro seen
    by_cases h : t ∈ seen
    · rw [firstSeenAux, if_pos h]
      have hcongr :
          (firstSeenAux seen ts).map (fun s => (t :: ts).count s) =
            (firstSeenAux seen ts).map (fun s => ts.count s) := by
        refine List.map_congr_left ?_
        intro s hs
        have hst : s ≠ t := fun e =>
          ((mem_firstSeenAux s ts seen).mp hs).2 (e ▸ h)
        exact count_cons_ne_str s t ts hst
      rw [hcongr, ih seen]
      simp only [List.filter_cons]
      rw [if_neg (by simpa using h)]
    · rw [firstSeenAux, if_neg h]
      have hcongr :
          (firstSeenAux (t :: seen) ts).map (fun s => (t :: ts).count s) =
            (firstSeenAux (t :: seen) ts).map (fun s => ts.count s) := by
        refine List.map_congr_left ?_
        intro s hs
        have hst : s ≠ t := fun e =>
          ((mem_firstSeenAux s ts (t :: seen)).mp hs).2
            (by rw [e]; exact List.mem_cons_self t seen)
        exact count_cons_ne_str s t ts hst
      have hhead : (t :: ts).count t = ts.count t + 1 := by
        rw [List.count_cons]; simp
      have hfilt : (t :: ts).filter (fun s => decide (s ∉ seen)) =
          t :: ts.filter (fun s => decide (s ∉ seen)) := by
        simp only [List.filter_cons]
        rw [if_pos (by simpa using h)]
      rw [List.map_cons, List.sum_cons, hcongr, ih (t :: seen), hhead, hfilt,
          List.length_cons, count_split_filter t ts seen h]
      omega

theorem sum_counts_firstSeen (l : List String) :
    ((firstSeen l).map (fun s => l.count s)).sum = l.length := by
  rw [firstSeen, sum_counts_firstSeenAux l []]
  simp

/-! ### Lemmas about the stable descending sort -/

theorem perm_insertDesc (x : String × Nat) :
    ∀ l : List (String × Nat), (insertDesc x l).Perm (x :: l) := by
  intro l
  induction l with
  | nil => exact List.Perm.refl _
  | cons y ys ih =>
    rw [insertDesc]
    by_cases h : y.2 ≤ x.2
    · rw [if_pos h]
    · rw [if_neg h]
      exact (ih.cons y).trans (List.Perm.swap x y ys)

theorem perm_sortDesc : ∀ l : List (String × Nat), (sortDesc l).Perm l := by
  intro l
  induction l with
  | nil => exact List.Perm.refl _
  | cons x xs ih =>
    have : sortDesc (x :: xs) = insertDesc x (sortDesc xs) := rfl
    rw [this]
    exact (perm_insertDesc x (sortDesc xs)).trans (ih.cons x)

theorem pairwise_insertDesc (R : String × Nat → String × Nat → Prop) (x : String × Nat) :
    ∀ l : List (String × Nat),
      l.Pairwise (fun a b => b.2 < a.2 ∨ (a.2 = b.2 ∧ R a b)) →
      (∀ z ∈ l, x.2 = z.2 → R x z) →
      (insertDesc x l).Pairwise (fun a b => b.2 < a.2 ∨ (a.2 = b.2 ∧ R a b)) := by
  intro l
  induction l with
  | nil => intro _ _; simp [insertDesc]
  | cons y ys ih =>
    intro hp hx
    obtain ⟨hy, hys⟩ := List.pairwise_cons.mp hp
    rw [insertDesc]
    by_cases h : y.2 ≤ x.2
    · rw [if_pos h]
      refine List.pairwise_cons.mpr ⟨?_, hp⟩
      intro z hz
      rcases List.mem_cons.mp hz with rfl | hzys
      · rcases Nat.lt_or_ge z.2 x.2 with hlt | hge
        · exact Or.inl hlt
        · have he : x.2 = z.2 := Nat.le_antisymm hge h
          exact Or.inr ⟨he, hx z (List.mem_cons_self _ _) he⟩
      · have hzy : z.2 ≤ y.2 := by
          rcases hy z hzys with hlt | ⟨he, _⟩
          · exact Nat.le_of_lt hlt
          · exact Nat.le_of_eq he.symm
        rcases Nat.lt_or_ge z.2 x.2 with hlt | hge
        · exact Or.inl hlt
        · have he : x.2 = z.2 := Nat.le_antisymm hge (Nat.le_trans hzy h)
          exact Or.inr ⟨he, hx z (List.mem_cons_of_mem _ hzys) he⟩
    · rw [if_neg h]
      have hxy : x.2 < y.2 := Nat.lt_of_not_le h
      refine List.pairwise_cons.mpr ⟨?_, ?_⟩
      · intro z hz
        rcases List.mem_cons.mp ((perm_insertDesc x ys).mem_iff.mp hz) with rfl | hzys
        · exact Or.inl hxy
        · exact hy z hzys
      · exact ih hys (fun z hz he => hx z (List.mem_cons_of_mem _ hz) he)

theorem pairwise_sortDesc (R : String × Nat → String × Nat → Prop) :
    ∀ l : List (String × Nat),
      l.Pairwise (fun a b => a.2 = b.2 → R a b) →
      (sortDesc l).Pairwise (fun a b => b.2 < a.2 ∨ (a.2 = b.2 ∧ R a b)) := by
  intro l
  induction l with
  | nil => intro _; simp [sortDesc]
  | cons x xs ih =>
    intro hp
    obtain ⟨hx, hxs⟩ := List.pairwise_cons.mp hp
    have : sortDesc (x :: xs) = insertDesc x (sortDesc xs) := rfl
    rw [this]
    refine pairwise_insertDesc R x (sortDesc xs) (ih hxs) ?_
    intro z hz he
    exact hx z ((perm_sortDesc xs).mem_iff.mp hz) he

theorem mem_counterItems (ts : List String) (t : String) (c : Nat) :
    (t, c) ∈ counterItems ts ↔ t ∈ ts ∧ c = ts.count t := by
  simp only [counterItems, firstSeen, List.mem_map]
  constructor
  · rintro ⟨s, hs, he⟩
    simp only [Prod.mk.injEq] at he
    obtain ⟨rfl, rfl⟩ := he
    exact ⟨((mem_firstSeenAux s ts []).mp hs).1, rfl⟩
  · rintro ⟨hmem, rfl⟩
    exact ⟨t, (mem_firstSeenAux t ts []).mpr ⟨hmem, List.not_mem_nil t⟩, rfl⟩

/-- C6: for a completed capture, the `Feel.tables` frequency map (as computed
by `tablesOf`, the body of the `tables` property over the cached query list)
has as keys exactly the distinct resolved table names of the capture, without
duplicates; each entry's value is that table's occurrence count; the values
sum to `count` (the length of the capture); and entries are ordered by
strictly descending count except that equal counts are ordered by the index
of the table's first occurrence in the capture. Moreover the `tables`
accessor on any facade state whose capture cache holds `qs` returns exactly
this map without re-invoking anything. -/
theorem c6_tables_frequency_map (qs : List Query) :
    (∀ t : String, (∃ c, (t, c) ∈ tablesOf qs) ↔ t ∈ qs.map Query.table) ∧
    ((tablesOf qs).map Prod.fst).Nodup ∧
    (∀ t c, (t, c) ∈ tablesOf qs → c = (qs.map Query.table).count t) ∧
    ((tablesOf qs).map Prod.snd).sum = qs.length ∧
    (tablesOf qs).Pairwise (fun a b => b.2 < a.2 ∨ (a.2 = b.2 ∧
      (qs.map Query.table).findIdx (fun s => s == a.1) <
        (qs.map Query.table).findIdx (fun s => s == b.1))) ∧
    (∀ (p : SqlParser) (callerLog : List RawQuery) (th : Option ThingModel)
        (tt : Option ThingType) (tm : Option (List Nat)) (it : Nat),
      Feel.tablesProp p callerLog
          { thing := th, thingType := tt, queries := some qs, times := tm, iterations := it } =
        Except.ok
          ({ thing := th, thingType := tt, queries := some qs, times := tm, iterations := it },
           tablesOf qs)) := by
  have hperm : (tablesOf qs).Perm (counterItems (qs.map Query.table)) :=
    perm_sortDesc _
  refine ⟨?_, ?_, ?_, ?_, ?_, ?_⟩
  · intro t
    constructor
    · rintro ⟨c, hc⟩
      exact ((mem_counterItems _ t c).mp (hperm.mem_iff.mp hc)).1
    · intro hmem
      exact ⟨(qs.map Query.table).count t,
        hperm.mem_iff.mpr ((mem_counterItems _ t _).mpr ⟨hmem, rfl⟩)⟩
  · have hkeys : (counterItems (qs.map Query.table)).map Prod.fst =
        firstSeen (qs.map Query.table) := by
      rw [counterItems, List.map_map]
      have h : ∀ a ∈ firstSeen (qs.map Query.table),
          (Prod.fst ∘ fun t => (t, (qs.map Query.table).count t)) a = id a :=
        fun a _ => rfl
      rw [List.map_congr_left h, List.map_id]
    refine ((hperm.map Prod.fst).nodup_iff).mpr ?_
    rw [hkeys]
    exact nodup_firstSeenAux _ []
  · intro t c hc
    exact ((mem_counterItems _ t c).mp (hperm.mem_iff.mp hc)).2
  · have hvals : (counterItems (qs.map Query.table)).map Prod.snd =
        (firstSeen (qs.map Query.table)).map (fun s => (qs.map Query.table).count s) := by
      simp [counterItems]
    rw [(hperm.map Prod.snd).sum_eq, hvals, sum_counts_firstSeen, List.length_map]
  · have hfs := pairwise_firstSeenAux (qs.map Query.table) []
    have hlift :
        (counterItems (qs.map Query.table)).Pairwise
          (fun a b : String × Nat => a.2 = b.2 →
            (qs.map Query.table).findIdx (fun s => s == a.1) <
              (qs.map Query.table).findIdx (fun s => s == b.1)) := by
      refine List.Pairwise.map _ ?_ hfs
      intro a b hab _
      exact hab
    exact pairwise_sortDesc _ _ hlift
  · intro p callerLog th tt tm it
    rfl

/-- C1 (amended): classification is deterministic and, over the five
detectors the source implements (queryset; class-based handler; serializer;
request callable; plain callable, the latter two guarded to non-class
values because a class matching neither class detector is rejected rather
than falling through), every successful classification is exactly
top-to-bottom first-match evaluation of that detector list; in particular a
class value (necessarily not of `QuerySet` type) that passes the
class-based-view check — and, being a class, is also callable — always gets
the handler tag `django_cbv` and never the plain-callable tag `function`. -/
theorem c1_classifier_precedence :
    (∀ (v : PyValue) (t : ThingType),
        (find_thing_type v).1 = Except.ok t ↔ firstMatchTag v = some t) ∧
    (∀ v : PyValue, v.isQuerySetType = false → v.isClass = true →
        check_django_class_based_view v = true →
        (find_thing_type v).1 = Except.ok ThingType.django_cbv ∧
        (find_thing_type v).1 ≠ Except.ok ThingType.function) := by
  constructor
  · intro v t
    by_cases hq : v.isQuerySetType = true
    · simp [find_thing_type, firstMatchTag, precedenceDetectors, List.find?, hq]
    · simp only [Bool.not_eq_true] at hq
      by_cases hcl : v.isClass = true
      · by_cases hcbv : check_django_class_based_view v = true
        · simp [find_thing_type, firstMatchTag, precedenceDetectors, List.find?,
                hq, hcl, hcbv]
        · simp only [Bool.not_eq_true] at hcbv
          by_cases hser : check_serializer v = true
          · simp [find_thing_type, firstMatchTag, precedenceDetectors, List.find?,
                  hq, hcl, hcbv, hser]
          · simp only [Bool.not_eq_true] at hser
            simp [find_thing_type, firstMatchTag, precedenceDetectors, List.find?,
                  hq, hcl, hcbv, hser]
      · simp only [Bool.not_eq_true] at hcl
        by_cases hcall : v.isCallable = true
        · by_cases hview : (check_django_view v).1 = true
          · simp [find_thing_type, firstMatchTag, precedenceDetectors, List.find?,
                  hq, hcl, hcall, hview]
          · simp only [Bool.not_eq_true] at hview
            simp [find_thing_type, firstMatchTag, precedenceDetectors, List.find?,
                  hq, hcl, hcall, hview]
        · simp only [Bool.not_eq_true] at hcall
          simp [find_thing_type, firstMatchTag, precedenceDetectors, List.find?,
                hq, hcl, hcall]
  · intro v hq hcl hcbv
    refine ⟨?_, ?_⟩
    · simp [find_thing_type, hq, hcl, hcbv]
    · simp [find_thing_type, hq, hcl, hcbv]

/-- C1 witness: the concrete class-based view `PizzaListView` satisfies both
the handler check and callability, and classifies as `django_cbv`, not as
`function`. -/
theorem c1_classifier_precedence_witness :
    listViewClass.isClass = true ∧ listViewClass.isCallable = true ∧
    check_django_class_based_view listViewClass = true ∧
    (find_thing_type listViewClass).1 = Except.ok ThingType.django_cbv ∧
    (find_thing_type listViewClass).1 ≠ Except.ok ThingType.function := by
  have h := c1_classifier_precedence.2 listViewClass rfl rfl (by decide)
  exact ⟨rfl, rfl, by decide, h.1, h.2⟩

/-- C1 counterexample: a stored-record instance satisfies the spec's
record-instance detector (rank 4) and none of the earlier detectors, yet the
classifier returns no tag at all — it raises `TypeError('Invalid Thing')` —
so classification is not first-match evaluation of the six-detector list the
claim states. -/
theorem c1_counterexample_no_record_detector :
    matches_record_instance modelInstanceValue = true ∧
    modelInstanceValue.isQuerySetType = false ∧
    check_django_class_based_view modelInstanceValue = false ∧
    check_serializer modelInstanceValue = false ∧
    (find_thing_type modelInstanceValue).1 = Except.error "Invalid Thing" :=
  ⟨rfl, rfl, rfl, rfl, rfl⟩

/-- C2 (amended): any value that is not queryset-typed, not a class and not
callable is rejected at facade construction with `TypeError('Invalid
Thing')`, and classification never invokes it; the message does not
enumerate the supported kinds. -/
theorem c2_unsupported_value_rejected_at_construction
    (v : PyValue) (emits : List RawQuery) (n : Nat)
    (hq : v.isQuerySetType = false) (hc : v.isClass = false)
    (hcall : v.isCallable = false) :
    Feel.init v emits n = Except.error "Invalid Thing" ∧
    (find_thing_type v).2 = 0 := by
  constructor
  · simp [Feel.init, find_thing_type, hq, hc, hcall]
  · simp [find_thing_type, hq, hc, hcall]

/-- C2 witness: the plain integer `42` is rejected at construction with
`TypeError('Invalid Thing')` and is never invoked. -/
theorem c2_unsupported_value_witness :
    Feel.init intValue [] 32 = Except.error "Invalid Thing" ∧
    (find_thing_type intValue).2 = 0 :=
  c2_unsupported_value_rejected_at_construction intValue [] 32 rfl rfl rfl

/-- C2 counterexample: the failure message for a plain integer is the string
`"Invalid Thing"`, which mentions none of the six supported kinds — the
claim's "message enumerates the six supported kinds" is false (the rest of
the claim, failing at construction without invocation, holds). -/
theorem c2_counterexample_message_not_enumerating :
    (find_thing_type intValue).1 = Except.error "Invalid Thing" ∧
    (find_thing_type intValue).2 = 0 ∧
    specKindNames.all (fun k => !(strContains "Invalid Thing" k)) = true :=
  ⟨rfl, rfl, by decide⟩

/-- C3: the classifier has no record-instance branch at all: a saved model
instance (not queryset-typed, not a class, not callable) satisfies the
spec's record-instance capability but `find_thing_type` raises
`TypeError('Invalid Thing')`, so facade construction fails — contradicting
both the claim and the repository's own `TestModelInstance` test, which
expects `Feel(instance).count == 1`. -/
theorem c3_record_instance_not_classified :
    matches_record_instance pizzaInstance = true ∧
    (find_thing_type pizzaInstance).1 = Except.error "Invalid Thing" ∧
    Feel.init pizzaInstance [] 32 = Except.error "Invalid Thing" :=
  ⟨rfl, rfl, rfl⟩

/-- C4: `Thing.execute_queryset` iterates a fresh `ModelIterable`, so
invoking a queryset unit returns the database's current rows in full (not
any memoized rows), appends its statement to the trace log on every single
invocation (here shown twice in a row), is entirely independent of the
queryset's populated-or-not result cache, and — in contrast — plain
`list(queryset)` would have served the memoized rows and executed nothing. -/
theorem c4_execute_queryset_bypasses_cache (qs : DjangoQuerySet) (log : List RawQuery) :
    (execute_queryset qs log).1 = qs.dbRows ∧
    (execute_queryset qs log).2 = log ++ [{ sql := qs.selectSql, time := "0.000" }] ∧
    execute_queryset qs log =
      execute_queryset
        { resultCache := none, dbRows := qs.dbRows, selectSql := qs.selectSql } log ∧
    (execute_queryset qs (execute_queryset qs log).2).2.length = log.length + 2 ∧
    (∀ rows, qs.resultCache = some rows →
      pyListQuerySet qs log = (rows, qs, log) ∧
      (execute_queryset qs log).1 = qs.dbRows) := by
  refine ⟨rfl, rfl, rfl, ?_, ?_⟩
  · simp [execute_queryset, runQuerySetSql]
  · intro rows hrows
    constructor
    · simp [pyListQuerySet, hrows]
    · rfl

/-- C4 witness: a queryset whose cache holds the stale row `[7]` while the
database holds `[1, 2]`: the executor returns `[1, 2]` and logs a statement,
twice over two invocations, while `list(queryset)` would have returned `[7]`
and logged nothing. -/
theorem c4_execute_queryset_witness :
    (execute_queryset cachedQuerySet []).1 = [1, 2] ∧
    (execute_queryset cachedQuerySet (execute_queryset cachedQuerySet []).2).2.length = 2 ∧
    pyListQuerySet cachedQuerySet [] = ([7], cachedQuerySet, []) := by
  have h := c4_execute_queryset_bypasses_cache cachedQuerySet []
  exact ⟨h.1, h.2.2.2.1, (h.2.2.2.2 [7] rfl).1⟩

/-- C5: the claim's idempotence never gets off the ground because the very
first read of `count` raises: `Feel._execute` calls `self._thing.execute()`
but the wrapper class defines no method named `execute` (only
`execute_thing`), so on the facade constructed for `Pizza.objects.all()` the
first `count` read evaluates to `AttributeError`, the query cache is never
written, and a second read of the unchanged state raises identically —
contradicting `tests/test_feel.py` (`test_queryset`, `test_count_is_stable`),
which expect `count == 1` twice. -/
theorem c5_count_first_read_raises :
    Feel.init pizzaQuerysetValue [pizzaEmit] 32 = Except.ok feelPizzaState ∧
    thingMethodNames.contains "execute" = false ∧
    Feel.count pAll [] feelPizzaState = Except.error PyErr.attributeError ∧
    feelPizzaState.queries = none ∧
    Feel.count pAll [] feelPizzaState = Feel.count pAll [] feelPizzaState := by
  refine ⟨rfl, by decide, ?_, rfl, rfl⟩
  have hmem : "execute" ∉ thingMethodNames := by decide
  simp [Feel.count, Feel._execute, feelPizzaState, invokeUnit, hmem, Except.map]

/-- C7: `_extract_table` turns a parser failure into the `"<unknown>"`
sentinel instead of propagating it, and the snapshot comprehension therefore
still produces one `Query` record per trace-log entry — every other
statement keeps its resolved table. -/
theorem c7_parse_failure_degrades (p : SqlParser) (sql : String) (log : List RawQuery)
    (hp : p sql = none) :
    extract_table p sql = "<unknown>" ∧
    (snapshotQueries p log).length = log.length ∧
    (∀ q ∈ log,
      ({ sql := q.sql, time := q.time, table := extract_table p q.sql } : Query) ∈
        snapshotQueries p log) := by
  refine ⟨?_, ?_, ?_⟩
  · simp [extract_table, hp]
  · simp [snapshotQueries]
  · intro q hq
    exact List.mem_map_of_mem _ hq

/-- C7 witness: a capture holding the unparsable statement `bad(` and a
parsable one: the bad statement resolves to the sentinel, the capture still
has both records, and the good statement keeps table `tests_topping`. -/
theorem c7_parse_failure_witness :
    failingParser "bad(" = none ∧
    extract_table failingParser "bad(" = "<unknown>" ∧
    (snapshotQueries failingParser mixedLog).length = mixedLog.length ∧
    ({ sql := "SELECT * FROM tests_topping", time := "0.2",
       table := "tests_topping" } : Query) ∈ snapshotQueries failingParser mixedLog := by
  have h := c7_parse_failure_degrades failingParser "bad(" mixedLog (by decide)
  refine ⟨by decide, h.1, h.2.1, ?_⟩
  have hm := h.2.2 { sql := "SELECT * FROM tests_topping", time := "0.2" }
    (by simp [mixedLog])
  simpa using hm

/-- C8: scoped profiling and direct profiling disagree on a block issuing
exactly one query: `Feel.profile` clears the stale trace log, snapshots the
single statement the block emits, and `count` reads `1` from the populated
cache without touching `_thing`; but classifying the same queryset and
reading `count` through the normal entry point raises `AttributeError`
(the `execute` / `execute_thing` mismatch), so the two paths are not
identical — the scoped side matches the claim, the direct side contradicts
it and the repository's own tests (`test_profile` vs `test_queryset`). -/
theorem c8_profile_count_vs_direct :
    Feel.count pAll [] (Feel.profile pAll [staleEntry] [pizzaEmit]) =
      Except.ok (Feel.profile pAll [staleEntry] [pizzaEmit], 1) ∧
    (Feel.profile pAll [staleEntry] [pizzaEmit]).queries =
      some [{ sql := "SELECT * FROM tests_pizza", time := "0.001",
              table := "tests_pizza" }] ∧
    Feel.init pizzaQuerysetValue [pizzaEmit] 32 = Except.ok feelPizzaState ∧
    Feel.count pAll [] feelPizzaState = Except.error PyErr.attributeError := by
  refine ⟨rfl, rfl, rfl, ?_⟩
  have hmem : "execute" ∉ thingMethodNames := by decide
  simp [Feel.count, Feel._execute, feelPizzaState, invokeUnit, hmem, Except.map]

/-- C9: `Feel._execute` and `Feel._benchmark_once` invoke the classified unit
via `self._thing.execute()`, but class `Thing` defines `execute_thing` and no
method named `execute`; consequently, on every facade the normal entry point
constructs — whatever the unit kind — the first access to any of `count`,
`queries`, `sql`, `tables`, `time` (with at least one iteration), `report` or
`to_dict` raises `AttributeError`. -/
theorem c9_execute_attribute_error :
    thingMethodNames.contains "execute" = false ∧
    thingMethodNames.contains "execute_thing" = true ∧
    (∀ (v : PyValue) (emits : List RawQuery) (n : Nat) (st : FeelState)
        (p : SqlParser) (callerLog : List RawQuery),
      Feel.init v emits n = Except.ok st →
      Feel.count p callerLog st = Except.error PyErr.attributeError ∧
      Feel.queriesProp p callerLog st = Except.error PyErr.attributeError ∧
      Feel.sqlProp p callerLog st = Except.error PyErr.attributeError ∧
      Feel.tablesProp p callerLog st = Except.error PyErr.attributeError ∧
      (0 < n → Feel.timeProp st = Except.error PyErr.attributeError) ∧
      Feel.report p callerLog st = Except.error PyErr.attributeError ∧
      Feel.to_dict p callerLog st = Except.error PyErr.attributeError) := by
  refine ⟨by decide, by decide, ?_⟩
  intro v emits n st p callerLog hinit
  rcases hft : (find_thing_type v).1 with e | tt
  · simp only [Feel.init, hft] at hinit
    exact Except.noConfusion hinit
  · simp only [Feel.init, hft] at hinit
    injection hinit with h
    subst h
    refine ⟨rfl, rfl, rfl, rfl, ?_, rfl, rfl⟩
    intro hn
    cases n with
    | zero => omega
    | succ m => rfl

/-- C9 witness: on the facade built for a plain function, every accessor's
first read evaluates to `AttributeError`. -/
theorem c9_execute_attribute_error_witness :
    Feel.init exampleFunctionValue [pizzaEmit] 32 = Except.ok exampleFnState ∧
    Feel.count pAll [] exampleFnState = Except.error PyErr.attributeError ∧
    Feel.queriesProp pAll [] exampleFnState = Except.error PyErr.attributeError ∧
    Feel.sqlProp pAll [] exampleFnState = Except.error PyErr.attributeError ∧
    Feel.tablesProp pAll [] exampleFnState = Except.error PyErr.attributeError ∧
    Feel.timeProp exampleFnState = Except.error PyErr.attributeError ∧
    Feel.report pAll [] exampleFnState = Except.error PyErr.attributeError ∧
    Feel.to_dict pAll [] exampleFnState = Except.error PyErr.attributeError := by
  have h := c9_execute_attribute_error.2.2 exampleFunctionValue [pizzaEmit] 32
    exampleFnState pAll [] rfl
  exact ⟨rfl, h.1, h.2.1, h.2.2.1, h.2.2.2.1, h.2.2.2.2.1 (by omega),
         h.2.2.2.2.2.1, h.2.2.2.2.2.2⟩

/-- C10: for a non-class callable whose signature has a `request` parameter,
classification itself invokes the callable exactly once (with a freshly
synthesized empty `HttpRequest()`); the value is tagged `view` only when the
returned object's exact type is `HttpResponse`, and otherwise tagged
`function`, whose executor later calls the value with zero arguments. -/
theorem c10_view_probe_and_exact_type (v : PyValue)
    (hq : v.isQuerySetType = false) (hc : v.isClass = false)
    (hcall : v.isCallable = true) (hreq : v.hasRequestParam = true) :
    (find_thing_type v).2 = 1 ∧
    (v.callResultType = "HttpResponse" →
      (find_thing_type v).1 = Except.ok ThingType.view) ∧
    (v.callResultType ≠ "HttpResponse" →
      (find_thing_type v).1 = Except.ok ThingType.function ∧
      executorCallStyle ThingType.function = CallStyle.noArgs ∧
      find_executor_type ThingType.function = "execute_function") := by
  refine ⟨?_, ?_, ?_⟩
  · simp [find_thing_type, check_django_view, hq, hc, hcall, hreq]
  · intro he
    simp [find_thing_type, check_django_view, hq, hc, hcall, hreq, he]
  · intro he
    have hb : (v.callResultType == "HttpResponse") = false := beq_eq_false_iff_ne.mpr he
    refine ⟨?_, rfl, rfl⟩
    simp [find_thing_type, check_django_view, hq, hc, hcall, hreq, hb]

/-- C10 witness: a view returning a `JsonResponse` is probed once during
classification and tagged `function` (zero-argument executor), while a view
returning exactly `HttpResponse` is probed once and tagged `view`. -/
theorem c10_view_probe_witness :
    (find_thing_type jsonView).2 = 1 ∧
    (find_thing_type jsonView).1 = Except.ok ThingType.function ∧
    executorCallStyle ThingType.function = CallStyle.noArgs ∧
    (find_thing_type plainHttpView).2 = 1 ∧
    (find_thing_type plainHttpView).1 = Except.ok ThingType.view := by
  have h1 := c10_view_probe_and_exact_type jsonView rfl rfl rfl rfl
  have h2 := c10_view_probe_and_exact_type plainHttpView rfl rfl rfl rfl
  have hne : jsonView.callResultType ≠ "HttpResponse" := by decide
  exact ⟨h1.1, (h1.2.2 hne).1, (h1.2.2 hne).2.1, h2.1, h2.2.1 rfl⟩

/-- C6 witness: on the concrete three-query capture, `tests_pizza` is a key,
its entry carries its occurrence count 2, the values sum to the capture
length, and the `tables` accessor returns the map from the populated cache. -/
theorem c6_tables_frequency_map_witness :
    (∃ c, ("tests_pizza", c) ∈ tablesOf demoCapture) ∧
    ("tests_pizza", 2) ∈ tablesOf demoCapture ∧
    2 = (demoCapture.map Query.table).count "tests_pizza" ∧
    ((tablesOf demoCapture).map Prod.snd).sum = demoCapture.length ∧
    Feel.tablesProp pAll []
        { thing := none, thingType := none, queries := some demoCapture,
          times := none, iterations := 32 } =
      Except.ok
        ({ thing := none, thingType := none, queries := some demoCapture,
           times := none, iterations := 32 }, tablesOf demoCapture) := by
  have h := c6_tables_frequency_map demoCapture
  exact ⟨(h.1 "tests_pizza").mpr (by decide), by decide,
         h.2.2.1 "tests_pizza" 2 (by decide), h.2.2.2.1,
         h.2.2.2.2.2 pAll [] none none none 32⟩

end DQF
